import Mathlib

/-!
Verification of the lightclock solar lighting control loop
(src/lightclock.py) against its specification.

The Python source is shallowly embedded below.  Real-valued quantities
(solar altitude in degrees, time in seconds, duty-cycle percentages)
are modelled as rationals; Python's `int(...)` conversion is modelled
as truncation toward zero, and Python's float `%` with a positive
modulus as `x - m * floor (x / m)`.
-/

namespace Lightclock

/-- Python `int(q)` on a real/float value: truncation toward zero. -/
def truncTowardZero (q : ℚ) : ℤ :=
  if 0 ≤ q then ⌊q⌋ else ⌈q⌉

/-- Python float `x % m` (sign of result follows the divisor; for the
positive divisors used by the program this is `x - m * ⌊x / m⌋`). -/
def pymod (x m : ℚ) : ℚ :=
  x - m * ⌊x / m⌋

/-- Module-level constant `TIMER = 60.0` (the loop period, seconds). -/
def TIMER : ℚ := 60

/-- Module-level constant `TWILIGHT_ALT = -18` (astronomical twilight). -/
def TWILIGHT_ALT : ℤ := -18

/-- The altitude quantization step of `main` (lightclock.py lines
100-113): `altitude = int(math.degrees(sun.alt))`, then values `>= 0`
collapse to `0`, values `< TWILIGHT_ALT` collapse to `TWILIGHT_ALT`,
and values inside the twilight band pass through unchanged.  The
twilight altitude is the module constant; it is a parameter here. -/
def quantizeAltitude (raw : ℚ) (twilight : ℤ) : ℤ :=
  let altitude := truncTowardZero raw
  if altitude ≥ 0 then 0
  else if altitude < twilight then twilight
  else altitude

/-- The duty-cycle computation of `lightControl` (lightclock.py lines
150-167): `duty_cycle = int(abs(100 * (abs(float(TWILIGHT_ALT) -
float(altitude)) / float(TWILIGHT_ALT))))`, then an exact `0` becomes
`0.01` and an exact `100` becomes `99.9`. -/
def dutyCycle (altitude : ℤ) (twilight : ℤ) : ℚ :=
  let raw : ℤ := truncTowardZero |100 * (|(twilight : ℚ) - (altitude : ℚ)| / (twilight : ℚ))|
  if raw = 0 then 1 / 100
  else if raw = 100 then 999 / 10
  else (raw : ℚ)

/-- The duty-cycle mapping as the spec words it (section 4.4): raw
percentage `100 * |twilightAltitude - altitude| / |twilightAltitude|`
truncated to an integer, then `0 ↦ 0.01` and `100 ↦ 99.9`.  Used only
to compare against `dutyCycle`, which is embedded from the source. -/
def dutyCycleSpec (altitude : ℤ) (twilight : ℤ) : ℚ :=
  let raw : ℤ := truncTowardZero (100 * |(twilight : ℚ) - (altitude : ℚ)| / |(twilight : ℚ)|)
  if raw = 0 then 1 / 100
  else if raw = 100 then 999 / 10
  else (raw : ℚ)

/-- The loop state owned by `main`: the previous cycle's quantized
altitude (`prev_altitude`). -/
structure LoopState where
  prev_altitude : ℤ
deriving DecidableEq, Repr

/-- `prev_altitude = 900` before the first cycle (lightclock.py line 77). -/
def initLoopState : LoopState := ⟨900⟩

/-- One cycle of the control loop's altitude-to-hardware section
(lightclock.py lines 100-120): quantize the raw altitude, call
`lightControl` with the quantized altitude exactly when
`abs(altitude - prev_altitude) > 0`, and overwrite `prev_altitude`
with the quantized altitude unconditionally.  The result pairs the new
state with the duty-cycle argument of the `ChangeDutyCycle` call, when
one is made. -/
def loopCycle (twilight : ℤ) (st : LoopState) (raw : ℚ) : LoopState × Option ℚ :=
  let altitude := quantizeAltitude raw twilight
  let call := if |altitude - st.prev_altitude| > 0
    then some (dutyCycle altitude twilight) else none
  (⟨altitude⟩, call)

/-- The end-of-cycle sleep duration (lightclock.py line 123):
`TIMER - ((time.time() - tick) % TIMER)`, where `tick` was recorded at
the start of the cycle and `now` is the time when the sleep begins. -/
def sleepDuration (timer : ℚ) (tick now : ℚ) : ℚ :=
  timer - pymod (now - tick) timer

/-- The startup offset (lightclock.py line 67):
`tad_offset = time.time() - time.mktime(start_tad)`, real time at loop
start minus the configured anchor instant, both in epoch seconds. -/
def tadOffset (realStart anchor : ℚ) : ℚ :=
  realStart - anchor

/-- The per-cycle simulated timestamp (lightclock.py line 86):
`time.localtime(time.time() - tad_offset)`, i.e. the current real time
shifted back by the fixed startup offset. -/
def simulatedNow (realStart anchor realNow : ℚ) : ℚ :=
  realNow - tadOffset realStart anchor

/-- The coordinate validation of `setLocation` (lightclock.py lines
199-219) for the coordinate branch: `lat_lon_err` is set when
`lat and lon` is falsy (Python truthiness: a coordinate equal to `0.0`
counts as missing) and otherwise when a bound check fails; the
function raises `ValueError` exactly when `lat_lon_err` ends up true.
Returns `true` when no error is raised for the coordinates. -/
def setLocationAccepts (lat lon : ℚ) : Bool :=
  let lat_lon_err :=
    if lat ≠ 0 ∧ lon ≠ 0 then
      (if ¬(-90 ≤ lat ∧ lat ≤ 90) then true else false) ||
      (if ¬(-180 < lon ∧ lon ≤ 180) then true else false)
    else true
  !lat_lon_err

/-- An exception reaching the `try` block's handlers in `main`. -/
inductive PyExc where
  | keyboardInterrupt
  | otherError
deriving DecidableEq, Repr

/-- A hardware shutdown action on the sink. -/
inductive HwAction where
  | stopOutput
  | releaseHandle
deriving DecidableEq, Repr

/-- The exception handling of `main` (lightclock.py lines 125-133):
`except KeyboardInterrupt` runs `PWM_pin.stop()` then `GPIO.cleanup()`
and returns normally; the bare `except: raise` re-raises anything else
without running any hardware action.  The result pairs the hardware
actions run, in order, with whether the exception propagates out. -/
def mainHandler : PyExc → List HwAction × Bool
  | .keyboardInterrupt => ([.stopOutput, .releaseHandle], false)
  | .otherError => ([], true)

/-- The clamp step shared by `dutyCycle` and `dutyCycleSpec`, as a
standalone function for the lemmas below. -/
def clampPct (r : ℤ) : ℚ :=
  if r = 0 then 1 / 100
  else if r = 100 then 999 / 10
  else (r : ℚ)

lemma dutyCycle_eq_clampPct (a t : ℤ) :
    dutyCycle a t
      = clampPct (truncTowardZero |100 * (|(t : ℚ) - (a : ℚ)| / (t : ℚ))|) := rfl

lemma dutyCycleSpec_eq_clampPct (a t : ℤ) :
    dutyCycleSpec a t
      = clampPct (truncTowardZero (100 * |(t : ℚ) - (a : ℚ)| / |(t : ℚ)|)) := rfl

/-- For a negative twilight altitude and an altitude in the twilight
band, the raw percentage computed by the code reduces to
`⌊100 * (a - t) / (-t)⌋`. -/
lemma rawPct_eq (a t : ℤ) (ht : t < 0) (h1 : t ≤ a) :
    truncTowardZero |100 * (|(t : ℚ) - (a : ℚ)| / (t : ℚ))|
      = ⌊100 * ((a : ℚ) - (t : ℚ)) / (-(t : ℚ))⌋ := by
  have htq : (t : ℚ) < 0 := by exact_mod_cast ht
  have haq : (t : ℚ) ≤ (a : ℚ) := by exact_mod_cast h1
  have hx : (0 : ℚ) ≤ (a : ℚ) - t := by linarith
  have habs1 : |(t : ℚ) - (a : ℚ)| = (a : ℚ) - t := by
    rw [abs_sub_comm]; exact abs_of_nonneg hx
  have hyt : ((a : ℚ) - t) / t ≤ 0 := div_nonpos_of_nonneg_of_nonpos hx htq.le
  have hneg : 100 * (((a : ℚ) - t) / t) ≤ 0 := by linarith
  have habs2 : |100 * (((a : ℚ) - t) / t)| = 100 * ((a : ℚ) - t) / (-(t : ℚ)) := by
    rw [abs_of_nonpos hneg]; ring
  have hnn : (0 : ℚ) ≤ 100 * ((a : ℚ) - t) / (-(t : ℚ)) :=
    div_nonneg (by linarith) (by linarith)
  rw [habs1, habs2, truncTowardZero, if_pos hnn]

/-- Same reduction for the raw percentage as the spec words it. -/
lemma rawPctSpec_eq (a t : ℤ) (ht : t < 0) (h1 : t ≤ a) :
    truncTowardZero (100 * |(t : ℚ) - (a : ℚ)| / |(t : ℚ)|)
      = ⌊100 * ((a : ℚ) - (t : ℚ)) / (-(t : ℚ))⌋ := by
  have htq : (t : ℚ) < 0 := by exact_mod_cast ht
  have haq : (t : ℚ) ≤ (a : ℚ) := by exact_mod_cast h1
  have hx : (0 : ℚ) ≤ (a : ℚ) - t := by linarith
  have habs1 : |(t : ℚ) - (a : ℚ)| = (a : ℚ) - t := by
    rw [abs_sub_comm]; exact abs_of_nonneg hx
  have habs2 : |(t : ℚ)| = -(t : ℚ) := abs_of_nonpos htq.le
  have hnn : (0 : ℚ) ≤ 100 * ((a : ℚ) - t) / (-(t : ℚ)) :=
    div_nonneg (by linarith) (by linarith)
  rw [habs1, habs2, truncTowardZero, if_pos hnn]

/-- The raw percentage lies in `[0, 100]` on the twilight band. -/
lemma rawPct_bounds (a t : ℤ) (ht : t < 0) (h1 : t ≤ a) (h2 : a ≤ 0) :
    0 ≤ ⌊100 * ((a : ℚ) - (t : ℚ)) / (-(t : ℚ))⌋ ∧
      ⌊100 * ((a : ℚ) - (t : ℚ)) / (-(t : ℚ))⌋ ≤ 100 := by
  have htq : (t : ℚ) < 0 := by exact_mod_cast ht
  have haq : (t : ℚ) ≤ (a : ℚ) := by exact_mod_cast h1
  have haq0 : (a : ℚ) ≤ 0 := by exact_mod_cast h2
  have hpos : (0 : ℚ) < -(t : ℚ) := by linarith
  constructor
  · apply Int.le_floor.mpr
    push_cast
    exact div_nonneg (by linarith) hpos.le
  · have hle : 100 * ((a : ℚ) - t) / (-(t : ℚ)) ≤ 100 := by
      rw [div_le_iff₀ hpos]
      linarith
    calc ⌊100 * ((a : ℚ) - (t : ℚ)) / (-(t : ℚ))⌋
        ≤ ⌊(100 : ℚ)⌋ := Int.floor_le_floor hle
      _ = 100 := by norm_num

/-- The raw percentage is monotone in the altitude on the band. -/
lemma rawPct_mono (a1 a2 t : ℤ) (ht : t < 0) (h12 : a1 ≤ a2) :
    ⌊100 * ((a1 : ℚ) - (t : ℚ)) / (-(t : ℚ))⌋
      ≤ ⌊100 * ((a2 : ℚ) - (t : ℚ)) / (-(t : ℚ))⌋ := by
  have htq : (t : ℚ) < 0 := by exact_mod_cast ht
  have h12q : (a1 : ℚ) ≤ (a2 : ℚ) := by exact_mod_cast h12
  have hpos : (0 : ℚ) < -(t : ℚ) := by linarith
  apply Int.floor_le_floor
  gcongr

/-- The clamp step is monotone on integer percentages in `[0, 100]`. -/
lemma clampPct_mono (r1 r2 : ℤ) (h0 : 0 ≤ r1) (h12 : r1 ≤ r2) (h100 : r2 ≤ 100) :
    clampPct r1 ≤ clampPct r2 := by
  by_cases e1 : r1 = 0
  · subst e1
    by_cases e2 : r2 = 0
    · subst e2; norm_num [clampPct]
    · by_cases e3 : r2 = 100
      · subst e3; norm_num [clampPct]
      · have hr2 : (1 : ℤ) ≤ r2 := by omega
        have hr2q : (1 : ℚ) ≤ (r2 : ℚ) := by exact_mod_cast hr2
        simp only [clampPct, if_neg e2, if_neg e3]
        norm_num
        linarith
  · by_cases e2 : r1 = 100
    · have e3 : r2 = 100 := by omega
      subst e2; subst e3; norm_num [clampPct]
    · have hr1 : (1 : ℤ) ≤ r1 := by omega
      have hr1' : r1 ≤ 99 := by omega
      have hr1q : (1 : ℚ) ≤ (r1 : ℚ) := by exact_mod_cast hr1
      have hr1q' : (r1 : ℚ) ≤ 99 := by exact_mod_cast hr1'
      have e4 : r2 ≠ 0 := by omega
      by_cases e5 : r2 = 100
      · subst e5
        simp only [clampPct, if_neg e1, if_neg e2, if_neg e4]
        norm_num
        linarith
      · have h12q : (r1 : ℚ) ≤ (r2 : ℚ) := by exact_mod_cast h12
        simp only [clampPct, if_neg e1, if_neg e2, if_neg e4, if_neg e5]
        exact h12q

/-- The quantized altitude always lands in `[twilight, 0]` when the
twilight altitude is nonpositive. -/
lemma quantizeAltitude_bounds (raw : ℚ) (t : ℤ) (ht : t ≤ 0) :
    t ≤ quantizeAltitude raw t ∧ quantizeAltitude raw t ≤ 0 := by
  unfold quantizeAltitude
  by_cases h1 : truncTowardZero raw ≥ 0
  · simp only [if_pos h1]
    exact ⟨ht, le_refl 0⟩
  · by_cases h2 : truncTowardZero raw < t
    · simp only [if_neg h1, if_pos h2]
      exact ⟨le_refl t, ht⟩
    · simp only [if_neg h1, if_neg h2]
      omega

/-- For a positive modulus, the Python modulo lies in `[0, m)`. -/
lemma pymod_bounds (x m : ℚ) (hm : 0 < m) : 0 ≤ pymod x m ∧ pymod x m < m := by
  unfold pymod
  have hxm : m * (x / m) = x := by field_simp
  constructor
  · have h1 : ((⌊x / m⌋ : ℤ) : ℚ) ≤ x / m := Int.floor_le _
    have h2 := mul_le_mul_of_nonneg_left h1 hm.le
    rw [hxm] at h2
    linarith
  · have h1 : x / m < (⌊x / m⌋ : ℚ) + 1 := Int.lt_floor_add_one _
    have h2 := mul_lt_mul_of_pos_left h1 hm
    rw [hxm] at h2
    have h3 : m * ((⌊x / m⌋ : ℚ) + 1) = m * (⌊x / m⌋ : ℚ) + m := by ring
    rw [h3] at h2
    linarith

/-- Claim C1: the altitude quantizer truncates the raw solar altitude
toward zero to an integer degree; a truncated value at or above 0
yields exactly 0, a truncated value strictly below the twilight
altitude yields exactly the twilight altitude, and a truncated value
inside the band `[twilight, 0)` passes through unchanged. -/
theorem C1_quantizeAltitude_cases (raw : ℚ) (twilight : ℤ) (ht : twilight < 0) :
    (0 ≤ truncTowardZero raw → quantizeAltitude raw twilight = 0) ∧
    (truncTowardZero raw < twilight → quantizeAltitude raw twilight = twilight) ∧
    (twilight ≤ truncTowardZero raw → truncTowardZero raw < 0 →
      quantizeAltitude raw twilight = truncTowardZero raw) := by
  refine ⟨fun h => ?_, fun h => ?_, fun h1 h2 => ?_⟩
  · simp [quantizeAltitude, h]
  · have h0 : ¬ (truncTowardZero raw ≥ 0) := by omega
    simp [quantizeAltitude, h0, h]
  · have h0 : ¬ (truncTowardZero raw ≥ 0) := by omega
    have h3 : ¬ (truncTowardZero raw < twilight) := by omega
    simp [quantizeAltitude, h0, h3]

/-- Witness for C1 at raw altitude -3.7 and twilight -18: the
truncated value is -3, inside the band, and passes through. -/
theorem C1_quantizeAltitude_cases_witness :
    (-18 : ℤ) < 0 ∧ quantizeAltitude (-37 / 10) (-18) = truncTowardZero (-37 / 10) ∧
      truncTowardZero ((-37 : ℚ) / 10) = -3 :=
  ⟨by norm_num,
   (C1_quantizeAltitude_cases (-37 / 10) (-18) (by norm_num)).2.2
     (by norm_num [truncTowardZero, Int.ceil_neg])
     (by norm_num [truncTowardZero, Int.ceil_neg]),
   by norm_num [truncTowardZero, Int.ceil_neg]⟩

/-- Claim C2: on the twilight band the duty-cycle computation of
`lightControl` agrees with the spec formula (truncate
`100 * |twilight - a| / |twilight|` to an integer, then clamp an exact
0 to 0.01 and an exact 100 to 99.9); in particular with twilight -18,
altitude 0 yields 99.9, altitude -18 yields 0.01, and -9 yields 50. -/
theorem C2_dutyCycle_matches_spec (a twilight : ℤ) (ht : twilight < 0)
    (h1 : twilight ≤ a) (h2 : a ≤ 0) :
    dutyCycle a twilight = dutyCycleSpec a twilight ∧
    dutyCycle 0 (-18) = 999 / 10 ∧
    dutyCycle (-18) (-18) = 1 / 100 ∧
    dutyCycle (-9) (-18) = 50 := by
  refine ⟨?_, ?_, ?_, ?_⟩
  · rw [dutyCycle_eq_clampPct, dutyCycleSpec_eq_clampPct,
      rawPct_eq a twilight ht h1, rawPctSpec_eq a twilight ht h1]
  · norm_num [dutyCycle, truncTowardZero]
  · norm_num [dutyCycle, truncTowardZero]
  · norm_num [dutyCycle, truncTowardZero]

/-- Witness for C2 at altitude -5 and twilight -18: both formulas give
the truncated percentage 72, and -9 gives the midpoint 50. -/
theorem C2_dutyCycle_matches_spec_witness :
    dutyCycle (-5) (-18) = dutyCycleSpec (-5) (-18) ∧
      dutyCycleSpec (-5) (-18) = 72 ∧ dutyCycle (-9) (-18) = 50 :=
  ⟨(C2_dutyCycle_matches_spec (-5) (-18) (by norm_num) (by norm_num) (by norm_num)).1,
   by norm_num [dutyCycleSpec, truncTowardZero],
   (C2_dutyCycle_matches_spec (-5) (-18) (by norm_num) (by norm_num) (by norm_num)).2.2.2⟩

/-- Claim C3 counterexample: with twilight -18 and band altitudes
a1 = -18 < a2 = 0, the duty cycle for a1 is NOT greater than or equal
to the duty cycle for a2: the code's duty cycle grows toward daylight
(0.01 at -18, 99.9 at 0). -/
theorem C3_dutyCycle_counterexample :
    (-18 : ℤ) ≤ (-18 : ℤ) ∧ (-18 : ℤ) < 0 ∧ (0 : ℤ) ≤ 0 ∧
      ¬ (dutyCycle (-18) (-18) ≥ dutyCycle 0 (-18)) := by
  norm_num [dutyCycle, truncTowardZero]

/-- Claim C3 amended: for band altitudes a1 < a2 the duty cycle for a1
is less than or equal to the duty cycle for a2 (less negative altitude
means more duty, approaching daylight). -/
theorem C3_dutyCycle_monotone (a1 a2 twilight : ℤ) (ht : twilight < 0)
    (h1 : twilight ≤ a1) (h12 : a1 < a2) (h2 : a2 ≤ 0) :
    dutyCycle a1 twilight ≤ dutyCycle a2 twilight := by
  have h1b : twilight ≤ a2 := by omega
  rw [dutyCycle_eq_clampPct, dutyCycle_eq_clampPct,
    rawPct_eq a1 twilight ht h1, rawPct_eq a2 twilight ht h1b]
  exact clampPct_mono _ _ (rawPct_bounds a1 twilight ht h1 (by omega)).1
    (rawPct_mono a1 a2 twilight ht h12.le) (rawPct_bounds a2 twilight ht h1b h2).2

/-- Witness for the amended C3 at a1 = -18, a2 = -9, twilight -18. -/
theorem C3_dutyCycle_monotone_witness :
    dutyCycle (-18) (-18) ≤ dutyCycle (-9) (-18) ∧
      dutyCycle (-18) (-18) = 1 / 100 ∧ dutyCycle (-9) (-18) = 50 :=
  ⟨C3_dutyCycle_monotone (-18) (-9) (-18) (by norm_num) (by norm_num)
     (by norm_num) (by norm_num),
   by norm_num [dutyCycle, truncTowardZero],
   by norm_num [dutyCycle, truncTowardZero]⟩

/-- Claim C4: in every cycle the hardware sink receives a duty-cycle
call iff the quantized altitude differs from the stored previous
altitude by any nonzero amount; when they are equal no call is made;
and the stored previous altitude is overwritten with the current
quantized altitude unconditionally. -/
theorem C4_loopCycle_call_iff (twilight : ℤ) (st : LoopState) (raw : ℚ) :
    ((loopCycle twilight st raw).2.isSome ↔
        quantizeAltitude raw twilight ≠ st.prev_altitude) ∧
    ((loopCycle twilight st raw).2 = none ↔
        quantizeAltitude raw twilight = st.prev_altitude) ∧
    (loopCycle twilight st raw).1.prev_altitude = quantizeAltitude raw twilight := by
  by_cases h : quantizeAltitude raw twilight = st.prev_altitude
  · simp [loopCycle, h]
  · have habs : |quantizeAltitude raw twilight - st.prev_altitude| > 0 := by
      rw [gt_iff_lt, abs_pos, sub_ne_zero]
      exact h
    simp [loopCycle, habs, h]

/-- Claim C5: the previous altitude starts at the sentinel 900,
outside the legal quantized range [TWILIGHT_ALT, 0], so for every
possible starting raw altitude the first cycle issues a hardware
call. -/
theorem C5_firstCycle_applies :
    ¬ (TWILIGHT_ALT ≤ initLoopState.prev_altitude ∧ initLoopState.prev_altitude ≤ 0) ∧
    ∀ raw : ℚ, ((loopCycle TWILIGHT_ALT initLoopState raw).2).isSome := by
  constructor
  · norm_num [TWILIGHT_ALT, initLoopState]
  · intro raw
    obtain ⟨hb1, hb2⟩ := quantizeAltitude_bounds raw TWILIGHT_ALT (by norm_num [TWILIGHT_ALT])
    have habs : |quantizeAltitude raw TWILIGHT_ALT - initLoopState.prev_altitude| > 0 := by
      rw [gt_iff_lt, abs_pos, sub_ne_zero]
      intro e
      rw [show initLoopState.prev_altitude = 900 from rfl] at e
      rw [e] at hb2
      exact absurd hb2 (by norm_num)
    simp [loopCycle, habs]

/-- Claim C6 at its failing input: the coordinates (0, 0) lie inside
the documented bounds, yet `setLocation` raises for them, because the
Python truthiness test `if lat and lon` treats the coordinate value
0.0 as a missing coordinate. -/
theorem C6_setLocation_rejects_inbounds_zero :
    setLocationAccepts 0 0 = false ∧
    ((-90 : ℚ) ≤ 0 ∧ (0 : ℚ) ≤ 90) ∧ ((-180 : ℚ) < 0 ∧ (0 : ℚ) ≤ 180) := by
  norm_num [setLocationAccepts]

/-- Claim C7 counterexample: not every exit path of the loop runs the
shutdown sequence: on a non-cancellation error the bare re-raise in
`main` runs no hardware action at all. -/
theorem C7_shutdown_counterexample :
    ¬ (∀ e : PyExc, (mainHandler e).1
        = [HwAction.stopOutput, HwAction.releaseHandle]) := by
  intro h
  have h2 := h PyExc.otherError
  simp [mainHandler] at h2

/-- Claim C7 amended: the ordered shutdown sequence (stop the output,
then release the hardware handle) runs exactly on the cancellation
path, which then exits cleanly; any other error propagates out of
`main` with no hardware shutdown action. -/
theorem C7_shutdown_on_cancel_only :
    mainHandler PyExc.keyboardInterrupt
        = ([HwAction.stopOutput, HwAction.releaseHandle], false) ∧
    mainHandler PyExc.otherError = ([], true) :=
  ⟨rfl, rfl⟩

/-- Claim C8: the end-of-cycle sleep is the period minus the elapsed
cycle work time modulo the period; for work d shorter than one period
the loop sleeps exactly timer - d, so it wakes at tick + timer rather
than tick + d + timer. -/
theorem C8_sleepDuration_phase_locked (timer tick d : ℚ) (ht : 0 < timer)
    (h0 : 0 ≤ d) (h1 : d < timer) :
    sleepDuration timer tick (tick + d) = timer - d ∧
    tick + d + sleepDuration timer tick (tick + d) = tick + timer := by
  have hsimp : tick + d - tick = d := by ring
  have hfloor : ⌊d / timer⌋ = 0 := by
    rw [Int.floor_eq_zero_iff]
    exact Set.mem_Ico.mpr ⟨div_nonneg h0 ht.le, by rw [div_lt_one ht]; exact h1⟩
  have e : sleepDuration timer tick (tick + d) = timer - d := by
    simp [sleepDuration, pymod, hsimp, hfloor]
  exact ⟨e, by rw [e]; ring⟩

/-- Witness for C8 with period 60, tick 100 and work time 10: the loop
sleeps 50 seconds and wakes at 160 = tick + period. -/
theorem C8_sleepDuration_phase_locked_witness :
    (sleepDuration 60 100 (100 + 10) = 60 - 10 ∧
      (100 : ℚ) + 10 + sleepDuration 60 100 (100 + 10) = 100 + 60) ∧
    sleepDuration 60 100 110 = 50 :=
  ⟨C8_sleepDuration_phase_locked 60 100 10 (by norm_num) (by norm_num) (by norm_num),
   by norm_num [sleepDuration, pymod]⟩

/-- Claim C9: each cycle's simulated timestamp equals the configured
anchor instant plus the real wall-clock time elapsed since the loop
start, because the loop stores the fixed offset real_start - anchor
once and subtracts it from the current real time. -/
theorem C9_simulatedNow_anchor_plus_elapsed (realStart anchor realNow : ℚ) :
    simulatedNow realStart anchor realNow = anchor + (realNow - realStart) := by
  unfold simulatedNow tadOffset
  ring

/-- Claim C10: for a positive period and any nonnegative per-cycle
work duration (including durations at or beyond one period) the
computed sleep duration lies in (0, period], so the sleep call never
receives a negative argument. -/
theorem C10_sleepDuration_in_range (timer tick d : ℚ) (ht : 0 < timer) (h0 : 0 ≤ d) :
    0 < sleepDuration timer tick (tick + d) ∧
      sleepDuration timer tick (tick + d) ≤ timer := by
  obtain ⟨hm1, hm2⟩ := pymod_bounds (tick + d - tick) timer ht
  unfold sleepDuration
  exact ⟨by linarith, by linarith⟩

/-- Witness for C10 with period 60 and work time 75 (longer than one
period): the sleep is 45, inside (0, 60]. -/
theorem C10_sleepDuration_in_range_witness :
    (0 < sleepDuration 60 0 (0 + 75) ∧ sleepDuration 60 0 (0 + 75) ≤ 60) ∧
    sleepDuration 60 0 75 = 45 :=
  ⟨C10_sleepDuration_in_range 60 0 75 (by norm_num) (by norm_num),
   by norm_num [sleepDuration, pymod]⟩

end Lightclock
